import Mathlib

/-!
# A shallow embedding of the flashcard app's shared-card / challenge subsystem

The definitions below are translated from `src/app/firebase/firestore.js`
(the data-access module of the repository) and, for the friend-request
path, from `sendFriendRequest` in `src/app/(tabs)/profile.tsx`.

The Firestore document store is modelled as explicit association lists of
`(docId, document)` pairs inside a `DB` record; `addDoc`'s server-generated
ids are modelled by a `nextId` counter.  Server timestamps and audit fields
(`createdAt`, `updatedAt`, `lastEditedBy`, ...) that no verified operation
reads back are omitted; the `new Date()` values that *are* stored into
recipient entries are modelled by an explicit `now : Nat` parameter.
JavaScript exceptions are modelled with `Except Err`; a JS optional string
field that the code tests for truthiness is modelled as a `String` where
`""` stands for the absent/falsy value, mirroring `x || ''`.
-/

/-- Error kinds thrown by the data layer.  The source throws plain
`Error` values; `notFound` stands for the "... not found" messages and
`accessDenied` for the "Access denied ..." / "You can only edit ..."
authorization messages. -/
inductive Err where
  | notFound
  | accessDenied
deriving DecidableEq, Repr

deriving instance DecidableEq for Except

/-- The card snapshot embedded in a challenge document by `sendChallenge`
(`firestore.js`): vocabulary, definition and the optional content fields,
each stored as `x || ''`.  `topicName` is read by `completeChallenge`
(it is absent, i.e. `""`, on challenges produced by `sendChallenge`). -/
structure CardSnap where
  vocabulary : String
  definition : String
  sentence : String
  imageUrl : String
  pronunciationField : String
  topicId : String
  topicName : String
deriving DecidableEq, Repr

/-- One entry of a challenge's `recipients` array
(`sendChallenge` initialises `status := "pending"`, `score := null`,
`completedAt := null`). -/
structure RecipientEntry where
  userId : String
  status : String
  score : Option Nat
  userAnswer : Option String
  completedAt : Option Nat
deriving DecidableEq, Repr

/-- A document of the `challenges` collection as written by
`sendChallenge` in `firestore.js`. -/
structure Challenge where
  senderId : String
  senderName : String
  card : CardSnap
  recipients : List RecipientEntry
  status : String
deriving DecidableEq, Repr

/-- A document of the `sharedCards` collection as written by
`addSharedCardFromChallenge`. -/
structure SharedCard where
  vocabulary : String
  definition : String
  sentence : String
  imageUrl : String
  pronunciationField : String
  topicId : String
  addedFrom : String
  senderId : String
  recipientId : String
deriving DecidableEq, Repr

/-- A document of the legacy `cards` collection as written by
`addCard` / `addCardWithTopic` (`userId` is the creator). -/
structure LegacyCard where
  vocabulary : String
  definition : String
  sentence : String
  imageUrl : String
  userId : String
  topicId : Option String
deriving DecidableEq, Repr

/-- A document of a user's `users/{uid}/myCards` subcollection,
with the fields read by `getUserCards`. -/
structure MyCardRef where
  sharedCardId : String
  topicId : Option String
  senderId : String
  addedFrom : String
deriving DecidableEq, Repr

/-- A document of the `users` collection, with the fields touched by
`addUserXP`, `getUserXP` and `completeChallenge`. -/
structure UserDoc where
  email : String
  displayName : String
  totalXP : Option Int
  pendingChallenges : List String
  completedChallenges : List String
deriving DecidableEq, Repr

/-- A document of the `friendRequests` collection as written by
`sendFriendRequest` in `profile.tsx`. -/
structure FriendRequest where
  fromUserId : String
  fromDisplayName : String
  fromEmail : String
  toUserId : String
  toDisplayName : String
  toEmail : String
  status : String
deriving DecidableEq, Repr

/-- A document of `users/{uid}/completedChallenges` as written by
`completeChallenge`: the per-user completed-challenge log record. -/
structure CompletedRecord where
  challengeId : String
  senderName : String
  senderId : String
  cardVocabulary : String
  cardDefinition : String
  cardImageUrl : Option String
  cardTopicName : Option String
  cardSentence : Option String
  cardPronunciationField : Option String
  userAnswer : String
  userScore : Nat
  isCorrect : Bool
  completedAt : Nat
deriving DecidableEq, Repr

/-- The modelled Firestore state: each collection is a list of
`(docId, document)` pairs; per-user subcollections carry the user id as an
extra first component.  `nextId` feeds the modelled `addDoc` id
generator. -/
structure DB where
  challenges : List (String × Challenge)
  sharedCards : List (String × SharedCard)
  cards : List (String × LegacyCard)
  users : List (String × UserDoc)
  myCards : List (String × String × MyCardRef)
  completedRecords : List (String × String × CompletedRecord)
  friendRequests : List (String × FriendRequest)
  nextId : Nat
deriving DecidableEq, Repr

/-- Model of `getDoc` on a collection: first document with the given id. -/
def lookupDoc {α : Type} (l : List (String × α)) (k : String) : Option α :=
  (l.find? (fun p => p.1 == k)).map (fun p => p.2)

/-- Model of `updateDoc` on a collection: replace the document stored under `k`. -/
def setDocIn {α : Type} (l : List (String × α)) (k : String) (v : α) :
    List (String × α) :=
  l.map (fun p => if p.1 == k then (k, v) else p)

/-- Modelled `addDoc` document-id generator. -/
def freshId (n : Nat) : String := "doc" ++ toString n

/-! ## Challenge completion (`completeChallenge`, `firestore.js` 1165-1278) -/

/-- The result object returned by `completeChallenge`. -/
structure CompleteOut where
  isCorrect : Bool
  score : Nat
  correctAnswer : String
deriving DecidableEq, Repr

/-- Model of JavaScript `String.prototype.toLowerCase` (ASCII case
mapping), written over the character list so it evaluates in proofs. -/
def jsToLower (s : String) : String := ⟨s.data.map Char.toLower⟩

/-- The whitespace characters stripped by JavaScript
`String.prototype.trim` (the ones that occur in this data model). -/
def isJsSpace (c : Char) : Bool := c == ' ' || c == '\t' || c == '\n' || c == '\r'

/-- Model of JavaScript `String.prototype.trim`: strip leading and
trailing whitespace. -/
def jsTrim (s : String) : String :=
  ⟨((s.data.dropWhile isJsSpace).reverse.dropWhile isJsSpace).reverse⟩

/-- The grading comparison of `completeChallenge`:
`userAnswer.toLowerCase().trim() === correctAnswer.toLowerCase().trim()`. -/
def gradeAnswer (userAnswer correctAnswer : String) : Bool :=
  jsTrim (jsToLower userAnswer) == jsTrim (jsToLower correctAnswer)

/-- The `recipients.map` of `completeChallenge`: every entry whose
`userId` matches is overwritten to `completed` with the new score, answer
and completion time; other entries are returned unchanged. -/
def markCompleted (uid ans : String) (score : Nat) (now : Nat)
    (rs : List RecipientEntry) : List RecipientEntry :=
  rs.map (fun r =>
    if r.userId == uid then
      { r with status := "completed", score := some score,
               userAnswer := some ans, completedAt := some now }
    else r)

/-- The completed-challenge log document built by `completeChallenge`
(optional card fields are copied only when truthy, i.e. nonempty). -/
def mkCompletedRecord (cid : String) (ch : Challenge) (ans : String)
    (score : Nat) (isC : Bool) (now : Nat) : CompletedRecord :=
  { challengeId := cid
    senderName := ch.senderName
    senderId := ch.senderId
    cardVocabulary := ch.card.vocabulary
    cardDefinition := ch.card.definition
    cardImageUrl := if ch.card.imageUrl == "" then none else some ch.card.imageUrl
    cardTopicName := if ch.card.topicName == "" then none else some ch.card.topicName
    cardSentence := if ch.card.sentence == "" then none else some ch.card.sentence
    cardPronunciationField :=
      if ch.card.pronunciationField == "" then none else some ch.card.pronunciationField
    userAnswer := ans
    userScore := score
    isCorrect := isC
    completedAt := now }

/-- The user-document update at the end of `completeChallenge`:
`arrayRemove(challengeId)` on `pendingChallenges` and
`arrayUnion(challengeId)` on `completedChallenges`. -/
def applyUserChallengeArrays (cid : String) (u : UserDoc) : UserDoc :=
  { u with
    pendingChallenges := u.pendingChallenges.filter (fun c => c != cid)
    completedChallenges :=
      if u.completedChallenges.contains cid then u.completedChallenges
      else u.completedChallenges ++ [cid] }

/-- Embedding of `completeChallenge(challengeId, userAnswer)` from `firestore.js`,
acting as user `uid` at time `now`:
fetches the challenge (throwing `Challenge not found` when absent), grades
the answer against the embedded card's vocabulary, rewrites the matching
recipient entries to `completed`, appends a fresh completed-challenge log
document, updates the caller's user document when it exists, and returns
`{isCorrect, score, correctAnswer}`. -/
def completeChallenge (db : DB) (uid cid ans : String) (now : Nat) :
    Except Err (CompleteOut × DB) :=
  match lookupDoc db.challenges cid with
  | none => .error .notFound
  | some ch =>
    let correctAnswer := ch.card.vocabulary
    let isC := gradeAnswer ans correctAnswer
    let score := if isC then 100 else 0
    let recips := markCompleted uid ans score now ch.recipients
    let newRec := mkCompletedRecord cid ch ans score isC now
    let users1 :=
      match lookupDoc db.users uid with
      | some u => setDocIn db.users uid (applyUserChallengeArrays cid u)
      | none => db.users
    .ok ({ isCorrect := isC, score := score, correctAnswer := correctAnswer },
      { db with
        challenges := setDocIn db.challenges cid { ch with recipients := recips }
        completedRecords := db.completedRecords ++ [(uid, freshId db.nextId, newRec)]
        users := users1
        nextId := db.nextId + 1 })

/-! ## Challenge rejection (`rejectChallenge`, `firestore.js` 1466-1504) -/

/-- The `recipients.map` of `rejectChallenge`: every entry whose `userId`
matches is overwritten to `rejected` with a fresh `completedAt`
(previously recorded `score`/`userAnswer` fields are kept). -/
def markRejected (uid : String) (now : Nat)
    (rs : List RecipientEntry) : List RecipientEntry :=
  rs.map (fun r =>
    if r.userId == uid then
      { r with status := "rejected", completedAt := some now }
    else r)

/-- Embedding of `rejectChallenge(challengeId)` from `firestore.js`, acting as user
`uid` at time `now`. -/
def rejectChallenge (db : DB) (uid cid : String) (now : Nat) :
    Except Err DB :=
  match lookupDoc db.challenges cid with
  | none => .error .notFound
  | some ch =>
    .ok { db with
      challenges :=
        setDocIn db.challenges cid
          { ch with recipients := markRejected uid now ch.recipients } }

/-! ## Shared-card materialization
(`addSharedCardFromChallenge`, `firestore.js` 461-505) -/

/-- The argument object passed to `addSharedCardFromChallenge`
(built by `addCardToCollection` in the challenge screen). -/
structure ChallengePayload where
  card : CardSnap
  senderId : String
  recipientId : String
  addedFrom : String
deriving DecidableEq, Repr

/-- The duplicate-check query of `addSharedCardFromChallenge`:
shared cards with the given `(vocabulary, definition, recipientId)`
triple, in store order. -/
def matchingShared (db : DB) (v d rcpt : String) :
    List (String × SharedCard) :=
  db.sharedCards.filter (fun p =>
    p.2.vocabulary == v && p.2.definition == d && p.2.recipientId == rcpt)

/-- Model of JS `x || dflt` on the modelled strings (`""` is the falsy value). -/
def orDefault (s dflt : String) : String := if s == "" then dflt else s

/-- The new shared-card document built by `addSharedCardFromChallenge`
(the content fields are stored as `x || ''`, which is the identity in
this encoding; `addedFrom` defaults to `"challenge"`). -/
def mkNewShared (cd : ChallengePayload) : SharedCard :=
  { vocabulary := cd.card.vocabulary
    definition := cd.card.definition
    sentence := cd.card.sentence
    imageUrl := cd.card.imageUrl
    pronunciationField := cd.card.pronunciationField
    topicId := cd.card.topicId
    addedFrom := orDefault cd.addedFrom "challenge"
    senderId := cd.senderId
    recipientId := cd.recipientId }

/-- Embedding of `addSharedCardFromChallenge(challengeData)` from `firestore.js`:
if a shared card with the same `(vocabulary, definition, recipientId)`
triple already exists, returns the first such document's id without
writing; otherwise creates a new shared card and returns its fresh id. -/
def addSharedCardFromChallenge (db : DB) (cd : ChallengePayload) :
    String × DB :=
  match matchingShared db cd.card.vocabulary cd.card.definition cd.recipientId with
  | (existingId, _) :: _ => (existingId, db)
  | [] =>
    let newId := freshId db.nextId
    (newId,
      { db with
        sharedCards := db.sharedCards ++ [(newId, mkNewShared cd)]
        nextId := db.nextId + 1 })

/-! ## Card reads (`getUserCards` / `getCards`, `firestore.js` 356-456) -/

/-- A card as returned by `getUserCards`: the user's reference document
joined with the shared card it points at. -/
structure UserCardView where
  refId : String
  sharedCardId : String
  topicId : Option String
  card : SharedCard
deriving DecidableEq, Repr

/-- The `users/{uid}/myCards` query of `getUserCards`: the user's
reference documents, restricted to `topicId` when a filter is given. -/
def myCardRefsFor (db : DB) (uid : String) (topicId : Option String) :
    List (String × MyCardRef) :=
  (db.myCards.filter (fun t => t.1 == uid)).filterMap (fun t =>
    match topicId with
    | none => some (t.2.1, t.2.2)
    | some tp => if t.2.2.topicId == some tp then some (t.2.1, t.2.2) else none)

/-- Embedding of `getUserCards(topicId)` from `firestore.js`: resolves each of the
user's card references against `sharedCards`, dropping dangling
references. -/
def getUserCards (db : DB) (uid : String) (topicId : Option String) :
    List UserCardView :=
  (myCardRefsFor db uid topicId).filterMap (fun p =>
    match lookupDoc db.sharedCards p.2.sharedCardId with
    | some sc =>
      some { refId := p.1, sharedCardId := p.2.sharedCardId,
             topicId := p.2.topicId, card := sc }
    | none => none)

/-- An element of `getCards`'s result: either a resolved shared-card view
or a legacy card document. -/
inductive CardView where
  | shared : UserCardView → CardView
  | legacy : String → LegacyCard → CardView
deriving DecidableEq, Repr

/-- The legacy fallback query of `getCards`: with a topic filter it
selects by `topicId` alone (no creator restriction!); without one it
selects the caller's own cards. -/
def legacyCardsFor (db : DB) (uid : String) (topicId : Option String) :
    List (String × LegacyCard) :=
  match topicId with
  | some tp => db.cards.filter (fun p => p.2.topicId == some tp)
  | none => db.cards.filter (fun p => p.2.userId == uid)

/-- Embedding of `getCards(topicId)` from `firestore.js`: returns the shared-card views
when `getUserCards` found any, and only otherwise falls back to the
legacy `cards` collection. -/
def getCards (db : DB) (uid : String) (topicId : Option String) :
    List CardView :=
  let sharedViews := getUserCards db uid topicId
  if sharedViews.isEmpty then
    (legacyCardsFor db uid topicId).map (fun p => CardView.legacy p.1 p.2)
  else
    sharedViews.map CardView.shared

/-! ## Card update (`updateCard` / `updateSharedCard`,
`firestore.js` 511-608) -/

/-- A partial content update passed to `updateCard` (merge semantics). -/
structure CardPatch where
  vocabulary : Option String
  definition : Option String
  sentence : Option String
  imageUrl : Option String
deriving DecidableEq, Repr

/-- Merge a patch into a shared card. -/
def patchShared (c : SharedCard) (p : CardPatch) : SharedCard :=
  { c with
    vocabulary := p.vocabulary.getD c.vocabulary
    definition := p.definition.getD c.definition
    sentence := p.sentence.getD c.sentence
    imageUrl := p.imageUrl.getD c.imageUrl }

/-- Merge a patch into a legacy card. -/
def patchLegacy (c : LegacyCard) (p : CardPatch) : LegacyCard :=
  { c with
    vocabulary := p.vocabulary.getD c.vocabulary
    definition := p.definition.getD c.definition
    sentence := p.sentence.getD c.sentence
    imageUrl := p.imageUrl.getD c.imageUrl }

/-- Embedding of `updateSharedCard(sharedCardId, updatedData)` from `firestore.js`:
when the document exists it requires the actor to be the card's
`recipientId` and applies the update; when it does not exist the code
falls through to a query on a `sharedCardId` *field* — a field no write
path of the repository ever stores, so that query is empty and the
function returns successfully without updating anything (the
`return; // Stop here — not a shared card` branch). -/
def updateSharedCard (db : DB) (uid sharedCardId : String) (p : CardPatch) :
    Except Err DB :=
  match lookupDoc db.sharedCards sharedCardId with
  | none => .ok db
  | some c =>
    if c.recipientId != uid then .error .accessDenied
    else .ok { db with
      sharedCards := setDocIn db.sharedCards sharedCardId (patchShared c p) }

/-- Embedding of `updateCard(cardId, updatedData)` from `firestore.js`: tries
`updateSharedCard` first and returns as soon as it does not throw; only a
thrown error reaches the legacy fallback, which requires the `cards`
document to exist and to belong to the actor. -/
def updateCard (db : DB) (uid cardId : String) (p : CardPatch) :
    Except Err DB :=
  match updateSharedCard db uid cardId p with
  | .ok db1 => .ok db1
  | .error _ =>
    match lookupDoc db.cards cardId with
    | none => .error .notFound
    | some c =>
      if c.userId != uid then .error .accessDenied
      else .ok { db with cards := setDocIn db.cards cardId (patchLegacy c p) }

/-! ## Friend requests (`sendFriendRequest`, `profile.tsx` 573-611) -/

/-- The outcome of `sendFriendRequest`: the source does not throw on a
duplicate but shows an "Already Sent" alert and creates nothing. -/
inductive SendOutcome where
  | alreadySent
  | sent : String → SendOutcome
deriving DecidableEq, Repr

/-- The duplicate-check query of `sendFriendRequest`: pending requests
from `fromUid` to `toUid` — one direction only. -/
def pendingSameDirection (db : DB) (fromUid toUid : String) :
    List (String × FriendRequest) :=
  db.friendRequests.filter (fun p =>
    p.2.fromUserId == fromUid && p.2.toUserId == toUid &&
      p.2.status == "pending")

/-- Embedding of `sendFriendRequest(toUserId, toDisplayName, toEmail)` from
`profile.tsx`, acting as `fromUid`: refuses only when a pending request
in the same direction already exists, otherwise appends a fresh pending
request record. -/
def sendFriendRequest (db : DB)
    (fromUid fromName fromEmail toUid toName toEmail : String) :
    SendOutcome × DB :=
  if (pendingSameDirection db fromUid toUid).isEmpty then
    let req : FriendRequest :=
      { fromUserId := fromUid, fromDisplayName := fromName,
        fromEmail := fromEmail, toUserId := toUid,
        toDisplayName := toName, toEmail := toEmail, status := "pending" }
    let newId := freshId db.nextId
    (.sent newId,
      { db with
        friendRequests := db.friendRequests ++ [(newId, req)]
        nextId := db.nextId + 1 })
  else (.alreadySent, db)

/-! ## XP ledger (`addUserXP` / `getUserXP`, `firestore.js` 1509-1556) -/

/-- Embedding of `addUserXP(xpAmount)` from `firestore.js`, acting as `uid`:
`increment(xpAmount)` on the existing user document (a missing `totalXP`
field is treated as `0` by the store's increment), or creation of the
user document with `totalXP := xpAmount` when none exists. -/
def addUserXP (db : DB) (uid : String) (amount : Int)
    (email name : String) : DB :=
  match lookupDoc db.users uid with
  | some u =>
    { db with
      users := setDocIn db.users uid
        { u with totalXP := some (u.totalXP.getD 0 + amount) } }
  | none =>
    { db with
      users := db.users ++
        [(uid, { email := email, displayName := name,
                 totalXP := some amount, pendingChallenges := [],
                 completedChallenges := [] })] }

/-- Embedding of `getUserXP()` from `firestore.js`: `data().totalXP || 0` on the
existing user document, `0` when the document is absent. -/
def getUserXP (db : DB) (uid : String) : Int :=
  match lookupDoc db.users uid with
  | some u => u.totalXP.getD 0
  | none => 0

/-- A sequence of `addUserXP` calls. -/
def applyAwards (db : DB) (uid : String) (amts : List Int)
    (email name : String) : DB :=
  amts.foldl (fun d a => addUserXP d uid a email name) db

/-! ## Derived observers -/

/-- The status of the first recipient entry of challenge `cid` belonging
to user `uid`. -/
def entryStatus (db : DB) (cid uid : String) : Option String :=
  match lookupDoc db.challenges cid with
  | none => none
  | some ch => (ch.recipients.find? (fun r => r.userId == uid)).map
      (fun r => r.status)

/-- How many completed-challenge log records user `uid` holds for
challenge `cid`. -/
def recordCount (db : DB) (uid cid : String) : Nat :=
  (db.completedRecords.filter
    (fun t => t.1 == uid && t.2.2.challengeId == cid)).length

/-- Whether a pending friend request exists between `a` and `b` in either
direction (the condition claim C8 attributes to `sendFriendRequest`). -/
def pendingBetween (db : DB) (a b : String) : Bool :=
  db.friendRequests.any (fun p =>
    p.2.status == "pending" &&
      ((p.2.fromUserId == a && p.2.toUserId == b) ||
        (p.2.fromUserId == b && p.2.toUserId == a)))

/-- A consequence of claim C5's union property, stated on the embedding:
every legacy card the user created directly appears (as itself) in the
result of the unfiltered `getCards`. -/
def getCardsContainsOwn (db : DB) (u : String) : Prop :=
  ∀ p ∈ db.cards, p.2.userId = u → CardView.legacy p.1 p.2 ∈ getCards db u none

/-! ## Concrete example stores -/

/-- The empty store. -/
def emptyDB : DB :=
  { challenges := [], sharedCards := [], cards := [], users := [],
    myCards := [], completedRecords := [], friendRequests := [], nextId := 0 }

/-- Example embedded card (vocabulary `apple`). -/
def exCard : CardSnap :=
  { vocabulary := "apple", definition := "a fruit", sentence := "",
    imageUrl := "", pronunciationField := "", topicId := "", topicName := "" }

/-- Example pending recipient entry for user `bob`. -/
def exEntryPending : RecipientEntry :=
  { userId := "bob", status := "pending", score := none,
    userAnswer := none, completedAt := none }

/-- Example challenge from `amy` to `bob`. -/
def exChallenge : Challenge :=
  { senderId := "amy", senderName := "Amy", card := exCard,
    recipients := [exEntryPending], status := "active" }

/-- Example store: one pending challenge and `bob`'s user document. -/
def exDB : DB :=
  { emptyDB with
    challenges := [("ch1", exChallenge)]
    users := [("bob", { email := "bob@x.io", displayName := "Bob",
                        totalXP := some 40, pendingChallenges := ["ch1"],
                        completedChallenges := [] })] }

/-- The result and state of one concrete `completeChallenge` run on
`exDB` (wrong answer, so score 0). -/
def exC4 : CompleteOut × DB :=
  (completeChallenge exDB "bob" "ch1" "nope" 9).toOption.getD
    (⟨false, 0, ""⟩, exDB)

/-- The store `exDB` after `bob` completes `ch1` once. -/
def exDB7a : DB :=
  ((completeChallenge exDB "bob" "ch1" "apple" 1).toOption.map Prod.snd).getD exDB

/-- The store `exDB7a` after `bob` completes `ch1` a second time. -/
def exDB7b : DB :=
  ((completeChallenge exDB7a "bob" "ch1" "apple" 2).toOption.map Prod.snd).getD exDB7a

/-- A recipient entry of `bob` already in the terminal `rejected` state. -/
def exEntryRejected : RecipientEntry :=
  { userId := "bob", status := "rejected", score := none,
    userAnswer := none, completedAt := some 1 }

/-- A challenge whose only recipient entry is terminal (`rejected`). -/
def exChallengeRejected : Challenge :=
  { senderId := "amy", senderName := "Amy", card := exCard,
    recipients := [exEntryRejected], status := "active" }

/-- Store holding the terminal-entry challenge. -/
def exDB3 : DB := { emptyDB with challenges := [("ch1", exChallengeRejected)] }

/-- The store `exDB3` after `bob` calls `completeChallenge` on the challenge whose
entry was already `rejected`. -/
def exDB3' : DB :=
  ((completeChallenge exDB3 "bob" "ch1" "apple" 2).toOption.map Prod.snd).getD exDB3

/-- Example payload for `addSharedCardFromChallenge`
(sender `amy`, recipient `bob`). -/
def exPayload : ChallengePayload :=
  { card := exCard, senderId := "amy", recipientId := "bob",
    addedFrom := "" }

/-- A shared card materialized for recipient `uma` by sender `amy`. -/
def exShared5 : SharedCard :=
  { vocabulary := "sun", definition := "a star", sentence := "",
    imageUrl := "", pronunciationField := "", topicId := "",
    addedFrom := "challenge", senderId := "amy", recipientId := "uma" }

/-- A legacy card created directly by `uma`. -/
def exLegacy5 : LegacyCard :=
  { vocabulary := "moon", definition := "a rock", sentence := "",
    imageUrl := "", userId := "uma", topicId := none }

/-- Store where `uma` both created a legacy card directly and holds an
ownership reference to a shared card. -/
def exDB5 : DB :=
  { emptyDB with
    sharedCards := [("s1", exShared5)]
    cards := [("c1", exLegacy5)]
    myCards := [("uma", "m1", { sharedCardId := "s1", topicId := none,
                                senderId := "amy", addedFrom := "challenge" })] }

/-- The resolved view of `uma`'s single card reference in `exDB5`. -/
def exView5 : UserCardView :=
  { refId := "m1", sharedCardId := "s1", topicId := none, card := exShared5 }

/-- A legacy card owned by `alice` (present only in `cards`). -/
def exLegacy6 : LegacyCard :=
  { vocabulary := "old", definition := "aged", sentence := "",
    imageUrl := "", userId := "alice", topicId := none }

/-- A shared card whose recipient is `rita`. -/
def exShared6 : SharedCard :=
  { vocabulary := "sea", definition := "water", sentence := "",
    imageUrl := "", pronunciationField := "", topicId := "",
    addedFrom := "challenge", senderId := "amy", recipientId := "rita" }

/-- Store for the `updateCard` analysis: one owned legacy card and one
shared card. -/
def exDB6 : DB :=
  { emptyDB with
    cards := [("cardA", exLegacy6)]
    sharedCards := [("s1", exShared6)] }

/-- A content patch used with `updateCard`. -/
def exPatch : CardPatch :=
  { vocabulary := some "new", definition := none, sentence := none,
    imageUrl := none }

/-- A pending friend request from `bob` to `alice`. -/
def exReqBobToAlice : FriendRequest :=
  { fromUserId := "bob", fromDisplayName := "Bob", fromEmail := "bob@x.io",
    toUserId := "alice", toDisplayName := "Alice", toEmail := "alice@x.io",
    status := "pending" }

/-- Store where `bob` has already sent `alice` a pending request. -/
def exDB8 : DB := { emptyDB with friendRequests := [("r1", exReqBobToAlice)] }

/-- The store `exDB8` after `alice` sends `bob` a friend request in the reverse
direction. -/
def exDB8' : DB :=
  (sendFriendRequest exDB8 "alice" "Alice" "alice@x.io" "bob" "Bob" "bob@x.io").2

/-! ## Store lemmas -/

/-- Updating the document stored under `k` makes `k` resolve to the new
value, provided some document was stored under `k` before. -/
theorem lookupDoc_setDocIn_self {α : Type} (l : List (String × α)) (k : String)
    (v w : α) (h : lookupDoc l k = some w) :
    lookupDoc (setDocIn l k v) k = some v := by
  induction l with
  | nil => simp [lookupDoc] at h
  | cons p t ih =>
    by_cases hk : (p.1 == k) = true
    · simp [lookupDoc, setDocIn, List.find?, hk]
    · simp only [lookupDoc, setDocIn, List.map_cons, List.find?, hk, if_neg] at h ⊢
      rw [if_neg (by simp_all)]
      simp only [List.find?, hk]
      exact ih h

/-- Appending a document under a fresh id makes that id resolve to it. -/
theorem lookupDoc_append_of_none {α : Type} (l : List (String × α))
    (k : String) (v : α) (h : lookupDoc l k = none) :
    lookupDoc (l ++ [(k, v)]) k = some v := by
  induction l with
  | nil => simp [lookupDoc, List.find?]
  | cons p t ih =>
    by_cases hk : (p.1 == k) = true
    · simp [lookupDoc, List.find?, hk] at h
    · simp only [lookupDoc, List.cons_append, List.find?, hk] at h ⊢
      exact ih h

/-- Lemma: `markCompleted` rewrites every matching entry to a completed one. -/
theorem markCompleted_mem (uid ans : String) (score now : Nat)
    (rs : List RecipientEntry) (r' : RecipientEntry)
    (hm : r' ∈ markCompleted uid ans score now rs) (hu : r'.userId = uid) :
    r'.status = "completed" ∧ r'.score = some score ∧
      r'.userAnswer = some ans ∧ r'.completedAt = some now := by
  unfold markCompleted at hm
  rcases List.mem_map.mp hm with ⟨r, _, rfl⟩
  by_cases h : (r.userId == uid) = true
  · simp [h]
  · rw [if_neg h] at hu
    exact absurd (beq_iff_eq.mpr hu) h

/-- Lemma: `markCompleted` keeps every entry's `userId`. -/
theorem markCompleted_exists_mem (uid ans : String) (score now : Nat)
    (rs : List RecipientEntry)
    (hex : ∃ r ∈ rs, r.userId = uid) :
    ∃ r' ∈ markCompleted uid ans score now rs, r'.userId = uid := by
  rcases hex with ⟨r, hr, hru⟩
  refine ⟨_, List.mem_map.mpr ⟨r, hr, rfl⟩, ?_⟩
  by_cases h : (r.userId == uid) = true <;> simp [h, hru]

/-- Lemma: `markRejected` rewrites every matching entry to a rejected one. -/
theorem markRejected_mem (uid : String) (now : Nat)
    (rs : List RecipientEntry) (r' : RecipientEntry)
    (hm : r' ∈ markRejected uid now rs) (hu : r'.userId = uid) :
    r'.status = "rejected" ∧ r'.completedAt = some now := by
  unfold markRejected at hm
  rcases List.mem_map.mp hm with ⟨r, _, rfl⟩
  by_cases h : (r.userId == uid) = true
  · simp [h]
  · rw [if_neg h] at hu
    exact absurd (beq_iff_eq.mpr hu) h

/-! ## C1 — grading and completion semantics of `completeChallenge` -/

/-- C1: for every stored challenge in which the caller appears as a
recipient, `completeChallenge` grades by case-insensitive,
whitespace-trimmed exact match of the answer against the embedded card's
vocabulary, computes `score = 100` iff the match holds (else `0`), returns
`{isCorrect, score, correctAnswer}` with `correctAnswer` the embedded
vocabulary, and marks the caller's recipient entry completed (recording
score, answer and completion time) regardless of correctness; it fails
with the not-found error when the challenge is absent. -/
theorem completeChallenge_grades_and_marks (db : DB) (uid cid ans : String)
    (now : Nat) :
    (lookupDoc db.challenges cid = none →
      completeChallenge db uid cid ans now = .error .notFound) ∧
    (∀ ch, lookupDoc db.challenges cid = some ch →
      (∃ r ∈ ch.recipients, r.userId = uid) →
      ∃ res db', completeChallenge db uid cid ans now = .ok (res, db') ∧
        res.correctAnswer = ch.card.vocabulary ∧
        res.isCorrect =
          (jsTrim (jsToLower ans) == jsTrim (jsToLower ch.card.vocabulary)) ∧
        res.score = (if res.isCorrect then 100 else 0) ∧
        ∃ ch', lookupDoc db'.challenges cid = some ch' ∧
          (∃ r' ∈ ch'.recipients, r'.userId = uid) ∧
          ∀ r' ∈ ch'.recipients, r'.userId = uid →
            r'.status = "completed" ∧ r'.score = some res.score ∧
              r'.userAnswer = some ans ∧ r'.completedAt = some now) := by
  constructor
  · intro h
    unfold completeChallenge
    rw [h]
  · intro ch hch hex
    unfold completeChallenge
    rw [hch]
    refine ⟨_, _, rfl, rfl, rfl, rfl, ?_⟩
    refine ⟨_, lookupDoc_setDocIn_self db.challenges cid _ ch hch, ?_, ?_⟩
    · exact markCompleted_exists_mem uid ans _ now ch.recipients hex
    · intro r' hm hu
      exact markCompleted_mem uid ans _ now ch.recipients r' hm hu

/-- Witness for C1 at a concrete input (scenario of spec property P3:
answer `"  Apple  "` against vocabulary `"apple"`). -/
theorem completeChallenge_grades_and_marks_witness :
    (lookupDoc exDB.challenges "ch1" = some exChallenge ∧
      ∃ r ∈ exChallenge.recipients, r.userId = "bob") ∧
    (∃ res db',
      completeChallenge exDB "bob" "ch1" "  Apple  " 5 = .ok (res, db') ∧
      res.correctAnswer = exChallenge.card.vocabulary ∧
      res.isCorrect =
        (jsTrim (jsToLower "  Apple  ") ==
          jsTrim (jsToLower exChallenge.card.vocabulary)) ∧
      res.score = (if res.isCorrect then 100 else 0) ∧
      ∃ ch', lookupDoc db'.challenges "ch1" = some ch' ∧
        (∃ r' ∈ ch'.recipients, r'.userId = "bob") ∧
        ∀ r' ∈ ch'.recipients, r'.userId = "bob" →
          r'.status = "completed" ∧ r'.score = some res.score ∧
            r'.userAnswer = some "  Apple  " ∧ r'.completedAt = some 5) :=
  ⟨⟨by decide, ⟨exEntryPending, by decide, by decide⟩⟩,
    (completeChallenge_grades_and_marks exDB "bob" "ch1" "  Apple  " 5).2
      exChallenge (by decide) ⟨exEntryPending, by decide, by decide⟩⟩

/-! ## C4 — `completeChallenge` never touches the card collections -/

/-- C4: a successful `completeChallenge` leaves the `sharedCards`
collection, the legacy `cards` collection and every user's `myCards`
reference subcollection exactly as they were: challenge completion only
grades and logs; card materialization is the separate
`addSharedCardFromChallenge` step. -/
theorem completeChallenge_frame (db : DB) (uid cid ans : String) (now : Nat)
    (res : CompleteOut) (db' : DB)
    (h : completeChallenge db uid cid ans now = .ok (res, db')) :
    db'.sharedCards = db.sharedCards ∧ db'.cards = db.cards ∧
      db'.myCards = db.myCards := by
  unfold completeChallenge at h
  cases hch : lookupDoc db.challenges cid with
  | none => rw [hch] at h; cases h
  | some ch =>
    rw [hch] at h
    simp only [Except.ok.injEq, Prod.mk.injEq] at h
    obtain ⟨-, h2⟩ := h
    subst h2
    exact ⟨rfl, rfl, rfl⟩

/-- Witness for C4 at a concrete input. -/
theorem completeChallenge_frame_witness :
    completeChallenge exDB "bob" "ch1" "nope" 9 = .ok (exC4.1, exC4.2) ∧
    (exC4.2.sharedCards = exDB.sharedCards ∧ exC4.2.cards = exDB.cards ∧
      exC4.2.myCards = exDB.myCards) :=
  ⟨by decide,
    completeChallenge_frame exDB "bob" "ch1" "nope" 9 exC4.1 exC4.2 (by decide)⟩

/-! ## C10 — the user-document side effect of `completeChallenge` -/

/-- C10: every successful `completeChallenge` call additionally updates
the caller's `users` document when it exists — the challenge id is
removed from `pendingChallenges` and added (if absent) to
`completedChallenges`, all other fields untouched — and the call still
succeeds with the `users` collection unchanged when the caller has no
user document. -/
theorem completeChallenge_user_doc (db : DB) (uid cid ans : String)
    (now : Nat) (ch : Challenge)
    (hch : lookupDoc db.challenges cid = some ch) :
    ∃ res db', completeChallenge db uid cid ans now = .ok (res, db') ∧
      (∀ u, lookupDoc db.users uid = some u →
        ∃ u', lookupDoc db'.users uid = some u' ∧
          u'.pendingChallenges = u.pendingChallenges.filter (fun c => c != cid) ∧
          u'.completedChallenges =
            (if u.completedChallenges.contains cid then u.completedChallenges
             else u.completedChallenges ++ [cid]) ∧
          u'.email = u.email ∧ u'.displayName = u.displayName ∧
          u'.totalXP = u.totalXP) ∧
      (lookupDoc db.users uid = none → db'.users = db.users) := by
  unfold completeChallenge
  rw [hch]
  refine ⟨_, _, rfl, ?_, ?_⟩
  · intro u hu
    rw [hu]
    exact ⟨applyUserChallengeArrays cid u,
      lookupDoc_setDocIn_self db.users uid _ u hu, rfl, rfl, rfl, rfl, rfl⟩
  · intro hu
    rw [hu]

/-- Witness for C10 at a concrete input (`bob`'s user document exists and
lists `ch1` as pending). -/
theorem completeChallenge_user_doc_witness :
    lookupDoc exDB.challenges "ch1" = some exChallenge ∧
    (∃ res db', completeChallenge exDB "bob" "ch1" "pear" 3 = .ok (res, db') ∧
      (∀ u, lookupDoc exDB.users "bob" = some u →
        ∃ u', lookupDoc db'.users "bob" = some u' ∧
          u'.pendingChallenges = u.pendingChallenges.filter (fun c => c != "ch1") ∧
          u'.completedChallenges =
            (if u.completedChallenges.contains "ch1" then u.completedChallenges
             else u.completedChallenges ++ ["ch1"]) ∧
          u'.email = u.email ∧ u'.displayName = u.displayName ∧
          u'.totalXP = u.totalXP) ∧
      (lookupDoc exDB.users "bob" = none → db'.users = exDB.users)) :=
  ⟨by decide,
    completeChallenge_user_doc exDB "bob" "ch1" "pear" 3 exChallenge (by decide)⟩

/-! ## C7 — the completed-challenge log is append-only but per call -/

/-- C7 counterexample: two `completeChallenge` calls by the same user on
the same challenge both succeed and leave two completed-challenge log
records for that (user, challenge) pair, refuting "at most one
CompletedChallengeRecord is ever written per (user, challenge)". -/
theorem completedRecord_duplicated_cex :
    (completeChallenge exDB "bob" "ch1" "apple" 1).toOption.isSome = true ∧
    (completeChallenge exDB7a "bob" "ch1" "apple" 2).toOption.isSome = true ∧
    recordCount exDB "bob" "ch1" = 0 ∧
    recordCount exDB7a "bob" "ch1" = 1 ∧
    recordCount exDB7b "bob" "ch1" = 2 := by decide

/-- C7 as amended: every successful `completeChallenge` call appends
exactly one fresh completed-challenge record for the caller — existing
records are never mutated — but repeated calls on the same challenge
each append their own record, so the count per (user, challenge) can
exceed one. -/
theorem completeChallenge_appends_record (db : DB) (uid cid ans : String)
    (now : Nat) (res : CompleteOut) (db' : DB)
    (h : completeChallenge db uid cid ans now = .ok (res, db')) :
    ∃ i r, db'.completedRecords = db.completedRecords ++ [(uid, i, r)] ∧
      r.challengeId = cid ∧ r.userAnswer = ans ∧ r.userScore = res.score ∧
      r.isCorrect = res.isCorrect ∧ r.completedAt = now := by
  unfold completeChallenge at h
  cases hch : lookupDoc db.challenges cid with
  | none => rw [hch] at h; cases h
  | some ch =>
    rw [hch] at h
    simp only [Except.ok.injEq, Prod.mk.injEq] at h
    obtain ⟨h1, h2⟩ := h
    subst h2
    refine ⟨_, _, rfl, rfl, rfl, ?_, ?_, rfl⟩
    · rw [← h1]
      rfl
    · rw [← h1]
      rfl

/-- Witness for the amended C7 at a concrete input. -/
theorem completeChallenge_appends_record_witness :
    completeChallenge exDB "bob" "ch1" "nope" 9 = .ok (exC4.1, exC4.2) ∧
    (∃ i r, exC4.2.completedRecords = exDB.completedRecords ++ [("bob", i, r)] ∧
      r.challengeId = "ch1" ∧ r.userAnswer = "nope" ∧ r.userScore = exC4.1.score ∧
      r.isCorrect = exC4.1.isCorrect ∧ r.completedAt = 9) :=
  ⟨by decide,
    completeChallenge_appends_record exDB "bob" "ch1" "nope" 9 exC4.1 exC4.2
      (by decide)⟩

/-! ## C3 — recipient-entry state machine -/

/-- C3 counterexample: in `exDB3`, `bob`'s recipient entry is already in
the terminal state `rejected`, yet a later `completeChallenge` call by
`bob` succeeds and moves the entry to `completed` — an operation does
transition an entry out of a terminal state, refuting the claim. -/
theorem terminal_state_escaped_cex :
    entryStatus exDB3 "ch1" "bob" = some "rejected" ∧
    (completeChallenge exDB3 "bob" "ch1" "apple" 2).toOption.isSome = true ∧
    entryStatus exDB3' "ch1" "bob" = some "completed" := by decide

/-- C3 as amended: `completeChallenge` and `rejectChallenge` overwrite
the matching recipient entry unconditionally — whatever its prior status,
the entry ends `completed` (resp. `rejected`) — so entries are not
protected in terminal states; both operations fail with the not-found
error exactly when the challenge document is absent. -/
theorem challenge_status_overwrite (db : DB) (uid cid ans : String)
    (now : Nat) :
    (lookupDoc db.challenges cid = none →
      rejectChallenge db uid cid now = .error .notFound ∧
      completeChallenge db uid cid ans now = .error .notFound) ∧
    (∀ ch, lookupDoc db.challenges cid = some ch →
      (∃ db', rejectChallenge db uid cid now = .ok db' ∧
        ∃ ch', lookupDoc db'.challenges cid = some ch' ∧
          ∀ r' ∈ ch'.recipients, r'.userId = uid →
            r'.status = "rejected" ∧ r'.completedAt = some now) ∧
      (∃ res db', completeChallenge db uid cid ans now = .ok (res, db') ∧
        ∃ ch', lookupDoc db'.challenges cid = some ch' ∧
          ∀ r' ∈ ch'.recipients, r'.userId = uid →
            r'.status = "completed")) := by
  constructor
  · intro h
    constructor
    · unfold rejectChallenge
      rw [h]
    · unfold completeChallenge
      rw [h]
  · intro ch hch
    constructor
    · unfold rejectChallenge
      rw [hch]
      refine ⟨_, rfl, _, lookupDoc_setDocIn_self db.challenges cid _ ch hch, ?_⟩
      intro r' hm hu
      exact markRejected_mem uid now ch.recipients r' hm hu
    · unfold completeChallenge
      rw [hch]
      refine ⟨_, _, rfl, _, lookupDoc_setDocIn_self db.challenges cid _ ch hch, ?_⟩
      intro r' hm hu
      exact (markCompleted_mem uid ans _ now ch.recipients r' hm hu).1

/-- Witness for the amended C3 at a concrete input (note the entry of
`exDB3` starts in a terminal state and is overwritten anyway). -/
theorem challenge_status_overwrite_witness :
    lookupDoc exDB3.challenges "ch1" = some exChallengeRejected ∧
    ((∃ db', rejectChallenge exDB3 "bob" "ch1" 4 = .ok db' ∧
        ∃ ch', lookupDoc db'.challenges "ch1" = some ch' ∧
          ∀ r' ∈ ch'.recipients, r'.userId = "bob" →
            r'.status = "rejected" ∧ r'.completedAt = some 4) ∧
      (∃ res db', completeChallenge exDB3 "bob" "ch1" "apple" 4 = .ok (res, db') ∧
        ∃ ch', lookupDoc db'.challenges "ch1" = some ch' ∧
          ∀ r' ∈ ch'.recipients, r'.userId = "bob" →
            r'.status = "completed")) :=
  ⟨by decide,
    (challenge_status_overwrite exDB3 "bob" "ch1" "apple" 4).2
      exChallengeRejected (by decide)⟩

/-! ## C2 — idempotency of shared-card materialization -/

/-- When no shared card with the payload's triple exists, the call
creates one under the fresh id. -/
theorem addSharedCard_creates (db : DB) (cd : ChallengePayload)
    (h : matchingShared db cd.card.vocabulary cd.card.definition
      cd.recipientId = []) :
    addSharedCardFromChallenge db cd =
      (freshId db.nextId,
        { db with
          sharedCards := db.sharedCards ++ [(freshId db.nextId, mkNewShared cd)]
          nextId := db.nextId + 1 }) := by
  unfold addSharedCardFromChallenge
  rw [h]

/-- When some shared card already matches the triple, the call returns
the first match's id and leaves the store untouched. -/
theorem addSharedCard_existing (db : DB) (cd : ChallengePayload)
    (i : String) (sc : SharedCard) (rest : List (String × SharedCard))
    (h : matchingShared db cd.card.vocabulary cd.card.definition
      cd.recipientId = (i, sc) :: rest) :
    addSharedCardFromChallenge db cd = (i, db) := by
  unfold addSharedCardFromChallenge
  rw [h]

/-- After a creating call, exactly the new document matches the triple. -/
theorem matchingShared_after_create (db : DB) (cd : ChallengePayload)
    (h : matchingShared db cd.card.vocabulary cd.card.definition
      cd.recipientId = []) :
    matchingShared (addSharedCardFromChallenge db cd).2 cd.card.vocabulary
      cd.card.definition cd.recipientId
      = [(freshId db.nextId, mkNewShared cd)] := by
  rw [addSharedCard_creates db cd h]
  have h' : db.sharedCards.filter (fun p =>
      p.2.vocabulary == cd.card.vocabulary &&
        p.2.definition == cd.card.definition &&
        p.2.recipientId == cd.recipientId) = [] := h
  unfold matchingShared
  simp [List.filter_append, h', mkNewShared]

/-- C2: when no shared card with the payload's
`(vocabulary, definition, recipientId)` triple exists yet, two sequential
`addSharedCardFromChallenge` calls return the same card id, the second
call leaves the store untouched, and afterwards exactly one shared card
with that triple exists. -/
theorem addSharedCard_idempotent (db : DB) (cd : ChallengePayload)
    (h : matchingShared db cd.card.vocabulary cd.card.definition
      cd.recipientId = []) :
    (addSharedCardFromChallenge (addSharedCardFromChallenge db cd).2 cd).1 =
      (addSharedCardFromChallenge db cd).1 ∧
    (addSharedCardFromChallenge (addSharedCardFromChallenge db cd).2 cd).2 =
      (addSharedCardFromChallenge db cd).2 ∧
    (matchingShared (addSharedCardFromChallenge db cd).2 cd.card.vocabulary
      cd.card.definition cd.recipientId).length = 1 := by
  have hone := matchingShared_after_create db cd h
  have hsecond :
      addSharedCardFromChallenge (addSharedCardFromChallenge db cd).2 cd =
        (freshId db.nextId, (addSharedCardFromChallenge db cd).2) :=
    addSharedCard_existing (addSharedCardFromChallenge db cd).2 cd
      (freshId db.nextId) (mkNewShared cd) [] hone
  refine ⟨?_, ?_, ?_⟩
  · rw [hsecond, addSharedCard_creates db cd h]
  · rw [hsecond]
  · rw [hone]
    rfl

/-- Witness for C2 at a concrete input: materializing `exPayload` twice
starting from the empty store. -/
theorem addSharedCard_idempotent_witness :
    matchingShared emptyDB exPayload.card.vocabulary
      exPayload.card.definition exPayload.recipientId = [] ∧
    ((addSharedCardFromChallenge
        (addSharedCardFromChallenge emptyDB exPayload).2 exPayload).1 =
      (addSharedCardFromChallenge emptyDB exPayload).1 ∧
    (addSharedCardFromChallenge
        (addSharedCardFromChallenge emptyDB exPayload).2 exPayload).2 =
      (addSharedCardFromChallenge emptyDB exPayload).2 ∧
    (matchingShared (addSharedCardFromChallenge emptyDB exPayload).2
      exPayload.card.vocabulary exPayload.card.definition
      exPayload.recipientId).length = 1) :=
  ⟨by decide, addSharedCard_idempotent emptyDB exPayload (by decide)⟩

/-! ## C5 — `getCards` is a fallback chain, not a union -/

/-- C5 counterexample: in `exDB5`, user `uma` created the legacy card
`c1` directly, yet the unfiltered `getCards` does not return it — the
presence of one reference-reachable shared card suppresses the whole
legacy source, so the result is not the union claim C5 states. -/
theorem getCards_misses_own_card_cex :
    ("c1", exLegacy5) ∈ exDB5.cards ∧ exLegacy5.userId = "uma" ∧
    ¬ getCardsContainsOwn exDB5 "uma" :=
  ⟨by decide, rfl, fun hall =>
    absurd (hall ("c1", exLegacy5) (by decide) rfl) (by decide)⟩

/-- C5 as amended: `getCards` returns the reference-reachable card views
whenever at least one exists, and only otherwise falls back to the legacy
`cards` query (the caller's own cards when unfiltered; all cards of the
topic when a topic filter is given) — a fallback chain, not a
deduplicated union of the two sources. -/
theorem getCards_fallback_characterization (db : DB) (u : String)
    (t : Option String) :
    (∀ v, CardView.shared v ∈ getCards db u t ↔ v ∈ getUserCards db u t) ∧
    (∀ i c, CardView.legacy i c ∈ getCards db u t ↔
      (getUserCards db u t = [] ∧ (i, c) ∈ legacyCardsFor db u t)) := by
  constructor
  · intro v
    unfold getCards
    by_cases he : (getUserCards db u t).isEmpty
    · rw [if_pos he]
      simp [List.mem_map, List.isEmpty_iff.mp he]
    · rw [if_neg he]
      simp [List.mem_map]
  · intro i c
    unfold getCards
    by_cases he : (getUserCards db u t).isEmpty
    · rw [if_pos he]
      simp only [List.mem_map, List.isEmpty_iff.mp he, true_and]
      constructor
      · rintro ⟨p, hp, hpe⟩
        obtain ⟨h1, h2⟩ := CardView.legacy.inj hpe
        subst h1
        subst h2
        rw [Prod.mk.eta]
        exact hp
      · intro hp
        exact ⟨(i, c), hp, rfl⟩
    · rw [if_neg he]
      simp only [List.mem_map]
      constructor
      · rintro ⟨a, _, hae⟩
        cases hae
      · rintro ⟨hnil, -⟩
        rw [hnil] at he
        simp at he

/-! ## C6 — `updateCard` never reaches its legacy fallback -/

/-- C6: the code contradicts the try-shared-then-fall-back-to-owned
contract.  When the card id is not a `sharedCards` document,
`updateSharedCard` returns *successfully* (its empty field-query branch),
so `updateCard` stops there: an owned card is silently left unmodified
yet the call reports success (first conjunct); a completely absent id
also reports success instead of `NotFoundError` (second conjunct); and a
shared card edited by a non-recipient ends in `NotFoundError` from the
fallback instead of `AuthorizationError` (third conjunct). -/
theorem updateCard_skips_legacy_fallback_bug :
    updateCard exDB6 "alice" "cardA" exPatch = .ok exDB6 ∧
    updateCard exDB6 "alice" "ghost" exPatch = .ok exDB6 ∧
    updateCard exDB6 "mallory" "s1" exPatch = .error .notFound := by decide

/-! ## C8 — friend-request duplicate check is one-directional -/

/-- C8 counterexample: a pending request from `bob` to `alice` exists,
yet `sendFriendRequest` called by `alice` towards `bob` does not fail
with a conflict — it appends a second pending record, leaving a pending
request in each direction. -/
theorem sendFriendRequest_reverse_pending_cex :
    pendingBetween exDB8 "alice" "bob" = true ∧
    (sendFriendRequest exDB8 "alice" "Alice" "alice@x.io"
      "bob" "Bob" "bob@x.io").1 ≠ SendOutcome.alreadySent ∧
    exDB8'.friendRequests.length = 2 ∧
    pendingSameDirection exDB8' "alice" "bob" ≠ [] ∧
    pendingSameDirection exDB8' "bob" "alice" ≠ [] := by decide

/-- C8 as amended: `sendFriendRequest` refuses (without creating
anything) exactly when a *same-direction* pending request — from the
caller to the target — already exists; a pending request in the reverse
direction does not block, and a fresh pending record is appended. -/
theorem sendFriendRequest_same_direction_only (db : DB)
    (fromUid fromName fromEmail toUid toName toEmail : String) :
    (pendingSameDirection db fromUid toUid ≠ [] →
      sendFriendRequest db fromUid fromName fromEmail toUid toName toEmail
        = (.alreadySent, db)) ∧
    (pendingSameDirection db fromUid toUid = [] →
      sendFriendRequest db fromUid fromName fromEmail toUid toName toEmail
        = (.sent (freshId db.nextId),
            { db with
              friendRequests := db.friendRequests ++
                [(freshId db.nextId,
                  { fromUserId := fromUid, fromDisplayName := fromName,
                    fromEmail := fromEmail, toUserId := toUid,
                    toDisplayName := toName, toEmail := toEmail,
                    status := "pending" })]
              nextId := db.nextId + 1 })) := by
  constructor
  · intro h
    unfold sendFriendRequest
    rw [if_neg (by simp [List.isEmpty_iff, h])]
  · intro h
    unfold sendFriendRequest
    rw [if_pos (by simp [List.isEmpty_iff, h])]

/-- Witness for the amended C8: in `exDB8`, `bob` resending towards
`alice` is refused, while `alice` sending towards `bob` creates the
reverse-direction record. -/
theorem sendFriendRequest_same_direction_only_witness :
    (pendingSameDirection exDB8 "bob" "alice" ≠ [] ∧
      sendFriendRequest exDB8 "bob" "Bob" "bob@x.io"
        "alice" "Alice" "alice@x.io" = (.alreadySent, exDB8)) ∧
    (pendingSameDirection exDB8 "alice" "bob" = [] ∧
      sendFriendRequest exDB8 "alice" "Alice" "alice@x.io"
        "bob" "Bob" "bob@x.io"
        = (.sent (freshId exDB8.nextId),
            { exDB8 with
              friendRequests := exDB8.friendRequests ++
                [(freshId exDB8.nextId,
                  { fromUserId := "alice", fromDisplayName := "Alice",
                    fromEmail := "alice@x.io", toUserId := "bob",
                    toDisplayName := "Bob", toEmail := "bob@x.io",
                    status := "pending" })]
              nextId := exDB8.nextId + 1 })) :=
  ⟨⟨by decide,
      (sendFriendRequest_same_direction_only exDB8 "bob" "Bob" "bob@x.io"
        "alice" "Alice" "alice@x.io").1 (by decide)⟩,
    ⟨by decide,
      (sendFriendRequest_same_direction_only exDB8 "alice" "Alice"
        "alice@x.io" "bob" "Bob" "bob@x.io").2 (by decide)⟩⟩

/-! ## C9 — XP exactness and monotonicity -/

/-- One `addUserXP` call changes `getUserXP` by exactly the amount, in
both the existing-document and the created-document branch. -/
theorem addUserXP_exact (db : DB) (uid : String) (amount : Int)
    (email name : String) :
    getUserXP (addUserXP db uid amount email name) uid
      = getUserXP db uid + amount := by
  cases hu : lookupDoc db.users uid with
  | some u =>
    have h1 : lookupDoc (addUserXP db uid amount email name).users uid
        = some { u with totalXP := some (u.totalXP.getD 0 + amount) } := by
      unfold addUserXP
      rw [hu]
      exact lookupDoc_setDocIn_self db.users uid _ u hu
    unfold getUserXP
    rw [h1, hu]
    simp
  | none =>
    have h1 : lookupDoc (addUserXP db uid amount email name).users uid
        = some { email := email, displayName := name, totalXP := some amount,
                 pendingChallenges := [], completedChallenges := [] } := by
      unfold addUserXP
      rw [hu]
      exact lookupDoc_append_of_none db.users uid _ hu
    unfold getUserXP
    rw [h1, hu]
    simp

/-- Lemma: `getUserXP` never decreases along a sequence of non-negative
awards. -/
theorem applyAwards_monotone (uid email name : String) (amts : List Int) :
    ∀ db : DB, (∀ a ∈ amts, 0 ≤ a) →
      getUserXP db uid ≤ getUserXP (applyAwards db uid amts email name) uid := by
  induction amts with
  | nil => intro db _; simp [applyAwards]
  | cons a rest ih =>
    intro db hpos
    have h1 : getUserXP db uid ≤ getUserXP (addUserXP db uid a email name) uid := by
      rw [addUserXP_exact]
      have ha := hpos a (by simp)
      omega
    have h2 := ih (addUserXP db uid a email name)
      (fun x hx => hpos x (by simp [hx]))
    calc getUserXP db uid
        ≤ getUserXP (addUserXP db uid a email name) uid := h1
      _ ≤ _ := by simpa [applyAwards] using h2

/-- C9: `getUserXP` is non-decreasing across any sequence of `addUserXP`
calls with non-negative amounts; a single `addUserXP` call (any amount,
in particular `100`) changes `getUserXP` by exactly that amount, creating
the XP record when none exists; and `getUserXP` returns `0` instead of
erroring for a user with no record. -/
theorem xp_monotone_and_exact (db : DB) (uid email name : String) :
    (∀ amount : Int,
      getUserXP (addUserXP db uid amount email name) uid
        = getUserXP db uid + amount) ∧
    (∀ amts : List Int, (∀ a ∈ amts, 0 ≤ a) →
      getUserXP db uid ≤ getUserXP (applyAwards db uid amts email name) uid) ∧
    (lookupDoc db.users uid = none → getUserXP db uid = 0) := by
  refine ⟨fun amount => addUserXP_exact db uid amount email name,
    fun amts h => applyAwards_monotone uid email name amts db h, ?_⟩
  intro h
  unfold getUserXP
  rw [h]

/-- Witness for C9 at a concrete input (fresh user, award 100 then 0). -/
theorem xp_monotone_and_exact_witness :
    (getUserXP (addUserXP emptyDB "u" 100 "e" "n") "u"
      = getUserXP emptyDB "u" + 100) ∧
    ((∀ a ∈ ([100, 0] : List Int), 0 ≤ a) ∧
      getUserXP emptyDB "u"
        ≤ getUserXP (applyAwards emptyDB "u" [100, 0] "e" "n") "u") ∧
    (lookupDoc emptyDB.users "u" = none ∧ getUserXP emptyDB "u" = 0) :=
  ⟨(xp_monotone_and_exact emptyDB "u" "e" "n").1 100,
    ⟨by decide, (xp_monotone_and_exact emptyDB "u" "e" "n").2.1 [100, 0]
      (by decide)⟩,
    ⟨by decide, (xp_monotone_and_exact emptyDB "u" "e" "n").2.2 (by decide)⟩⟩

/-- Witness for the amended C5 at a concrete input: in `exDB5` the
shared view is returned and the legacy membership equivalence holds. -/
theorem getCards_fallback_characterization_witness :
    (CardView.shared exView5 ∈ getCards exDB5 "uma" none ↔
      exView5 ∈ getUserCards exDB5 "uma" none) ∧
    (CardView.legacy "c1" exLegacy5 ∈ getCards exDB5 "uma" none ↔
      (getUserCards exDB5 "uma" none = [] ∧
        ("c1", exLegacy5) ∈ legacyCardsFor exDB5 "uma" none)) :=
  ⟨(getCards_fallback_characterization exDB5 "uma" none).1 exView5,
    (getCards_fallback_characterization exDB5 "uma" none).2 "c1" exLegacy5⟩
